import Mathlib

/-!
Shallow embedding of the authentication and role/permission logic of the
`azure-ad-angular` repository (services/auth.service.ts and
services/graph.service.ts), together with theorems checking the
natural-language specification against it.
-/

namespace AzureAdAngular

/-! ## String helpers (JS semantics) -/

/-- `strHasPre s pat` : does the char list `s` start with `pat`? -/
def strHasPre : List Char → List Char → Bool
  | _, [] => true
  | [], _ :: _ => false
  | c :: cs, d :: ds => (c = d) && strHasPre cs ds

/-- `strHasSub s pat` : does `pat` occur as a contiguous substring of `s`?
Mirrors JavaScript `String.prototype.includes`. -/
def strHasSub : List Char → List Char → Bool
  | [], pat => strHasPre [] pat
  | c :: cs, pat => strHasPre (c :: cs) pat || strHasSub cs pat

/-- JavaScript `s.includes(pat)` on Lean strings. -/
def includesStr (s pat : String) : Bool :=
  strHasSub s.data pat.data

/-- JavaScript `s.toLowerCase()` (ASCII case folding, as `Char.toLower`),
written as a map over the character list so it evaluates by kernel reduction. -/
def toLowerStr (s : String) : String :=
  String.mk (s.data.map Char.toLower)

/-- JavaScript `x || d` for a possibly-undefined string `x`
(`none` = undefined; the empty string is falsy). -/
def jsOrStr (x : Option String) (d : String) : String :=
  match x with
  | none => d
  | some s => if s = "" then d else s

/-- JavaScript `x || y` for two possibly-undefined strings, returning a
possibly-undefined string (used for `graphProfile.jobTitle || basicProfile.jobTitle`). -/
def jsOrOpt (x y : Option String) : Option String :=
  match x with
  | none => y
  | some s => if s = "" then y else some s

/-- JavaScript's `[...new Set(l)]`: remove duplicates keeping the first
occurrence of each element, preserving order. -/
def dedupFirstAux : List String → List String → List String
  | [], _ => []
  | x :: xs, seen =>
      if x ∈ seen then dedupFirstAux xs seen
      else x :: dedupFirstAux xs (x :: seen)

def dedupFirst (l : List String) : List String :=
  dedupFirstAux l []

/-! ## Data model (`UserProfile`, `AzureADGroup`, `GraphUser`) -/

/-- The `permissions` record inside `UserProfile` (auth.service.ts). -/
structure Permissions where
  canViewDashboard : Bool
  canManageUsers : Bool
  canSendEmails : Bool
  canViewReports : Bool
  canManageSettings : Bool
deriving DecidableEq, Repr

/-- The keys of the `permissions` record (`keyof UserProfile['permissions']`). -/
inductive PermissionKey where
  | canViewDashboard
  | canManageUsers
  | canSendEmails
  | canViewReports
  | canManageSettings
deriving DecidableEq, Repr

/-- Field lookup `permissions[key]`. -/
def Permissions.get (p : Permissions) : PermissionKey → Bool
  | .canViewDashboard => p.canViewDashboard
  | .canManageUsers => p.canManageUsers
  | .canSendEmails => p.canSendEmails
  | .canViewReports => p.canViewReports
  | .canManageSettings => p.canManageSettings

/-- `GraphUser` (graph.service.ts); optional fields are `Option`. -/
structure GraphUser where
  id : String
  displayName : String
  mail : String
  userPrincipalName : String
  jobTitle : Option String
  officeLocation : Option String
deriving DecidableEq, Repr

/-- `AzureADGroup` (graph.service.ts). -/
structure AzureADGroup where
  id : String
  displayName : String
  description : Option String
  roles : List String
deriving DecidableEq, Repr

/-- `UserProfile` (auth.service.ts). -/
structure UserProfile where
  name : String
  email : String
  username : String
  roles : List String
  groups : List AzureADGroup
  jobTitle : Option String
  officeLocation : Option String
  graphProfile : Option GraphUser
  permissions : Permissions
deriving DecidableEq, Repr

/-! ## `AuthService.initializePermissions` and `calculatePermissions` -/

/-- `initializePermissions(roles)`: every permission starts `false`
(the `roles` argument is ignored by the source). -/
def initializePermissions (_roles : List String) : Permissions :=
  { canViewDashboard := false
    canManageUsers := false
    canSendEmails := false
    canViewReports := false
    canManageSettings := false }

/-- One iteration of the `roles.forEach` loop in `calculatePermissions`:
the `switch (roleLower)` statement. Each branch only sets flags to `true`. -/
def applyRole (p : Permissions) (role : String) : Permissions :=
  let roleLower := toLowerStr role
  if roleLower = "admin" ∨ roleLower = "administrator" then
    { p with canViewDashboard := true, canManageUsers := true,
             canSendEmails := true, canViewReports := true,
             canManageSettings := true }
  else if roleLower = "editor" then
    { p with canViewDashboard := true, canSendEmails := true,
             canViewReports := true }
  else if roleLower = "viewer" then
    { p with canViewDashboard := true, canViewReports := true }
  else if roleLower = "user" then
    { p with canViewDashboard := true }
  else
    -- default branch: custom role patterns
    let p := if includesStr roleLower "admin" then
               { p with canManageUsers := true, canManageSettings := true }
             else p
    let p := if includesStr roleLower "editor" || includesStr roleLower "write" then
               { p with canSendEmails := true }
             else p
    if includesStr roleLower "view" || includesStr roleLower "read" then
      { p with canViewReports := true }
    else p

/-- The final step of `calculatePermissions`:
`if (Object.values(permissions).some(v => v === true)) permissions.canViewDashboard = true`. -/
def forceDashboard (p : Permissions) : Permissions :=
  if p.canViewDashboard || p.canManageUsers || p.canSendEmails
      || p.canViewReports || p.canManageSettings then
    { p with canViewDashboard := true }
  else p

/-- `AuthService.calculatePermissions(roles)`. -/
def calculatePermissions (roles : List String) : Permissions :=
  forceDashboard (roles.foldl applyRole (initializePermissions roles))

/-! ## Spec-side permission model

The spec describes permission derivation as: start from all five
permissions false; each role, compared case-insensitively, *grants* a fixed
set of permissions (an OR-reduction over the roles); finally dashboard is
forced on if anything was granted. The following definitions follow the
spec's words; `calculatePermissions_matches_spec` compares them with the
source translation above. -/

/-- The set of permissions a single role grants, per the spec's rules. -/
def specGrant (role : String) : Permissions :=
  let r := toLowerStr role
  if r = "admin" ∨ r = "administrator" then
    ⟨true, true, true, true, true⟩
  else if r = "editor" then
    ⟨true, false, true, true, false⟩
  else if r = "viewer" then
    ⟨true, false, false, true, false⟩
  else if r = "user" then
    ⟨true, false, false, false, false⟩
  else
    ⟨false,
      includesStr r "admin",
      includesStr r "editor" || includesStr r "write",
      includesStr r "view" || includesStr r "read",
      includesStr r "admin"⟩

/-- Pointwise OR of two permission records. -/
def Permissions.join (p q : Permissions) : Permissions :=
  ⟨p.canViewDashboard || q.canViewDashboard,
   p.canManageUsers || q.canManageUsers,
   p.canSendEmails || q.canSendEmails,
   p.canViewReports || q.canViewReports,
   p.canManageSettings || q.canManageSettings⟩

/-- OR-reduction of the grants of a list of roles. -/
def anyGrant (roles : List String) : Permissions :=
  { canViewDashboard := roles.any fun r => (specGrant r).canViewDashboard
    canManageUsers := roles.any fun r => (specGrant r).canManageUsers
    canSendEmails := roles.any fun r => (specGrant r).canSendEmails
    canViewReports := roles.any fun r => (specGrant r).canViewReports
    canManageSettings := roles.any fun r => (specGrant r).canManageSettings }

/-- Permission derivation as described by the spec: OR-reduction of
per-role grants, then dashboard forced on if anything is granted. -/
def specCalculatePermissions (roles : List String) : Permissions :=
  forceDashboard (anyGrant roles)

lemma Permissions.join_assoc (p q r : Permissions) :
    (p.join q).join r = p.join (q.join r) := by
  simp [Permissions.join, Bool.or_assoc]

lemma Permissions.join_allFalse (p : Permissions) :
    p.join ⟨false, false, false, false, false⟩ = p := by
  cases p; simp [Permissions.join]

lemma Permissions.allFalse_join (p : Permissions) :
    Permissions.join ⟨false, false, false, false, false⟩ p = p := by
  cases p; simp [Permissions.join]

/-- Each iteration of the `switch` joins the grant of the role into the
accumulated permissions. -/
lemma applyRole_eq_join (p : Permissions) (r : String) :
    applyRole p r = p.join (specGrant r) := by
  rcases p with ⟨a, b, c, d, e⟩
  simp only [applyRole, specGrant, Permissions.join]
  split
  · simp
  · split
    · simp
    · split
      · simp
      · split
        · simp
        · cases h1 : includesStr (toLowerStr r) "admin" <;>
            cases h2 : includesStr (toLowerStr r) "editor"
              || includesStr (toLowerStr r) "write" <;>
            cases h3 : includesStr (toLowerStr r) "view"
              || includesStr (toLowerStr r) "read" <;>
            simp [h1, h2, h3]

/-- The `roles.forEach` loop is the OR-reduction of the grants. -/
lemma foldl_applyRole (roles : List String) (p : Permissions) :
    roles.foldl applyRole p = p.join (anyGrant roles) := by
  induction roles generalizing p with
  | nil =>
      simp [anyGrant, Permissions.join_allFalse]
  | cons r rs ih =>
      have hcons : anyGrant (r :: rs) = (specGrant r).join (anyGrant rs) := by
        simp [anyGrant, Permissions.join]
      simp only [List.foldl_cons, ih, applyRole_eq_join, hcons,
        Permissions.join_assoc]

lemma calculatePermissions_eq (roles : List String) :
    calculatePermissions roles = forceDashboard (anyGrant roles) := by
  simp [calculatePermissions, initializePermissions, foldl_applyRole,
    Permissions.allFalse_join]

lemma forceDashboard_canViewDashboard (p : Permissions) :
    (forceDashboard p).canViewDashboard =
      (p.canViewDashboard || p.canManageUsers || p.canSendEmails
        || p.canViewReports || p.canManageSettings) := by
  unfold forceDashboard
  split
  · next h => exact h.symm
  · next h => simp_all

lemma forceDashboard_canManageUsers (p : Permissions) :
    (forceDashboard p).canManageUsers = p.canManageUsers := by
  unfold forceDashboard; split <;> rfl

lemma forceDashboard_canSendEmails (p : Permissions) :
    (forceDashboard p).canSendEmails = p.canSendEmails := by
  unfold forceDashboard; split <;> rfl

lemma forceDashboard_canViewReports (p : Permissions) :
    (forceDashboard p).canViewReports = p.canViewReports := by
  unfold forceDashboard; split <;> rfl

lemma forceDashboard_canManageSettings (p : Permissions) :
    (forceDashboard p).canManageSettings = p.canManageSettings := by
  unfold forceDashboard; split <;> rfl

lemma List.any_of_perm {α : Type} {l m : List α} (h : l.Perm m) (f : α → Bool) :
    l.any f = m.any f := by
  cases hb : m.any f
  · simp only [List.any_eq_false] at hb ⊢
    intro x hx; exact hb x (h.mem_iff.mp hx)
  · simp only [List.any_eq_true] at hb ⊢
    obtain ⟨x, hx, hfx⟩ := hb
    exact ⟨x, h.mem_iff.mpr hx, hfx⟩

lemma anyGrant_mono (R S : List String) (h : ∀ x ∈ R, x ∈ S)
    (k : PermissionKey) :
    (anyGrant R).get k = true → (anyGrant S).get k = true := by
  cases k <;>
    · simp only [anyGrant, Permissions.get, List.any_eq_true]
      rintro ⟨x, hx, hfx⟩
      exact ⟨x, h x hx, hfx⟩

lemma anyGrant_perm (R S : List String) (h : R.Perm S) :
    anyGrant R = anyGrant S := by
  simp [anyGrant, List.any_of_perm h]

lemma forceDashboard_mono (p q : Permissions)
    (h : ∀ k, p.get k = true → q.get k = true) (k : PermissionKey) :
    (forceDashboard p).get k = true → (forceDashboard q).get k = true := by
  cases k
  case canViewDashboard =>
    simp only [Permissions.get, forceDashboard_canViewDashboard,
      Bool.or_eq_true]
    rintro ((((h1 | h1) | h1) | h1) | h1)
    · exact Or.inl (Or.inl (Or.inl (Or.inl (h .canViewDashboard h1))))
    · exact Or.inl (Or.inl (Or.inl (Or.inr (h .canManageUsers h1))))
    · exact Or.inl (Or.inl (Or.inr (h .canSendEmails h1)))
    · exact Or.inl (Or.inr (h .canViewReports h1))
    · exact Or.inr (h .canManageSettings h1)
  case canManageUsers =>
    simpa only [Permissions.get, forceDashboard_canManageUsers] using
      h .canManageUsers
  case canSendEmails =>
    simpa only [Permissions.get, forceDashboard_canSendEmails] using
      h .canSendEmails
  case canViewReports =>
    simpa only [Permissions.get, forceDashboard_canViewReports] using
      h .canViewReports
  case canManageSettings =>
    simpa only [Permissions.get, forceDashboard_canManageSettings] using
      h .canManageSettings

/-- C1: `calculatePermissions` agrees with the spec's rules (all-false
start, per-role grants with exact case-insensitive matches and substring
heuristics, dashboard forced on when anything is granted), and on
`["CustomWriteRole"]` it grants exactly sendEmails and dashboard. -/
theorem calculatePermissions_matches_spec :
    (∀ roles : List String,
        calculatePermissions roles = specCalculatePermissions roles) ∧
    calculatePermissions ["CustomWriteRole"] =
      ⟨true, false, true, false, false⟩ := by
  constructor
  · intro roles
    rw [calculatePermissions_eq]; rfl
  · decide

/-- C2: for every role list, if any of the five permission flags returned
by `calculatePermissions` is true, then `canViewDashboard` is true. -/
theorem calculatePermissions_dashboard_invariant
    (roles : List String) (k : PermissionKey)
    (h : (calculatePermissions roles).get k = true) :
    (calculatePermissions roles).canViewDashboard = true := by
  rw [calculatePermissions_eq] at h ⊢
  cases k
  case canViewDashboard => exact h
  all_goals
    simp only [Permissions.get, forceDashboard_canManageUsers,
      forceDashboard_canSendEmails, forceDashboard_canViewReports,
      forceDashboard_canManageSettings] at h
  all_goals simp [forceDashboard_canViewDashboard, h]

theorem calculatePermissions_dashboard_invariant_witness :
    (calculatePermissions ["CustomWriteRole"]).get .canSendEmails = true ∧
    (calculatePermissions ["CustomWriteRole"]).canViewDashboard = true :=
  ⟨by decide,
   calculatePermissions_dashboard_invariant ["CustomWriteRole"]
     .canSendEmails (by decide)⟩

/-- C3: `calculatePermissions` is monotonic under role-set inclusion
(every flag true for `R` stays true for any superset `S`) and invariant
under permutation of the role list. -/
theorem calculatePermissions_monotone_permInvariant :
    (∀ R S : List String, (∀ x ∈ R, x ∈ S) → ∀ k : PermissionKey,
        (calculatePermissions R).get k = true →
        (calculatePermissions S).get k = true) ∧
    (∀ R S : List String, R.Perm S →
        calculatePermissions R = calculatePermissions S) := by
  constructor
  · intro R S h k
    rw [calculatePermissions_eq, calculatePermissions_eq]
    exact forceDashboard_mono _ _ (anyGrant_mono R S h) k
  · intro R S h
    rw [calculatePermissions_eq, calculatePermissions_eq,
      anyGrant_perm R S h]

theorem calculatePermissions_monotone_permInvariant_witness :
    ((∀ x ∈ ["user"], x ∈ ["admin", "user"]) ∧
      (calculatePermissions ["user"]).get .canViewDashboard = true ∧
      (calculatePermissions ["admin", "user"]).get .canViewDashboard = true) ∧
    (List.Perm ["admin", "user"] ["user", "admin"] ∧
      calculatePermissions ["admin", "user"] =
        calculatePermissions ["user", "admin"]) :=
  ⟨⟨by decide, by decide,
    calculatePermissions_monotone_permInvariant.1 ["user"] ["admin", "user"]
      (by decide) .canViewDashboard (by decide)⟩,
   ⟨List.Perm.swap "user" "admin" [],
    calculatePermissions_monotone_permInvariant.2 _ _
      (List.Perm.swap "user" "admin" [])⟩⟩

/-! ## `GraphService.extractRolesFromGroup` -/

/-- `GraphService.extractRolesFromGroup(groupName)`: build the role list by
appending `"Admin"`, `"Editor"`, `"Viewer"` for each matching
case-insensitive substring test, defaulting to `["User"]` when empty. -/
def extractRolesFromGroup (groupName : String) : List String :=
  let roles : List String :=
    (if includesStr (toLowerStr groupName) "admin" then ["Admin"] else []) ++
    (if includesStr (toLowerStr groupName) "editor" then ["Editor"] else []) ++
    (if includesStr (toLowerStr groupName) "viewer" then ["Viewer"] else [])
  if roles = [] then ["User"] else roles

/-- C4: role extraction from a group display name is a case-insensitive
substring match: `"Admin"`, `"Editor"`, `"Viewer"` are each present exactly
when the lowercased name contains the corresponding keyword, all matching
rules apply, an unmatched name yields exactly `["User"]`, and names equal up
to letter case yield the same role list (e.g. `"ADMIN-team"` and
`"admin-team"`). -/
theorem extractRolesFromGroup_spec :
    (∀ name : String,
      (("Admin" ∈ extractRolesFromGroup name)
        ↔ includesStr (toLowerStr name) "admin" = true) ∧
      (("Editor" ∈ extractRolesFromGroup name)
        ↔ includesStr (toLowerStr name) "editor" = true) ∧
      (("Viewer" ∈ extractRolesFromGroup name)
        ↔ includesStr (toLowerStr name) "viewer" = true) ∧
      (includesStr (toLowerStr name) "admin" = false →
        includesStr (toLowerStr name) "editor" = false →
        includesStr (toLowerStr name) "viewer" = false →
        extractRolesFromGroup name = ["User"])) ∧
    (∀ n m : String, toLowerStr n = toLowerStr m →
        extractRolesFromGroup n = extractRolesFromGroup m) ∧
    extractRolesFromGroup "ADMIN-team" = extractRolesFromGroup "admin-team" := by
  refine ⟨fun name => ?_, fun n m h => ?_, by decide⟩
  · cases h1 : includesStr (toLowerStr name) "admin" <;>
      cases h2 : includesStr (toLowerStr name) "editor" <;>
      cases h3 : includesStr (toLowerStr name) "viewer" <;>
      simp [extractRolesFromGroup, h1, h2, h3]
  · simp only [extractRolesFromGroup, h]

theorem extractRolesFromGroup_spec_witness :
    (includesStr (toLowerStr "AdminEditor-grp") "admin" = true ∧
      "Admin" ∈ extractRolesFromGroup "AdminEditor-grp" ∧
      "Editor" ∈ extractRolesFromGroup "AdminEditor-grp") ∧
    (toLowerStr "ADMIN-team" = toLowerStr "admin-team" ∧
      extractRolesFromGroup "ADMIN-team" = extractRolesFromGroup "admin-team") :=
  ⟨⟨by decide,
    (extractRolesFromGroup_spec.1 "AdminEditor-grp").1.mpr (by decide),
    (extractRolesFromGroup_spec.1 "AdminEditor-grp").2.1.mpr (by decide)⟩,
   ⟨by decide,
    extractRolesFromGroup_spec.2.1 "ADMIN-team" "admin-team" (by decide)⟩⟩

/-! ## `AuthService.getHighestRole` -/

/-- The fixed `roleHierarchy` array of `getHighestRole`. -/
def roleHierarchy : List String := ["Admin", "Editor", "Viewer", "User"]

/-- `AuthService.getHighestRole()`, as a function of the stored profile.
The `for (const role of roleHierarchy)` loop over the literal four-element
array is unrolled into the four `if` tests, in order; the final line models
`profile.roles[0] || 'User'` (an empty-string first role is falsy in JS). -/
def getHighestRole (profile : Option UserProfile) : String :=
  match profile with
  | none => "User"
  | some p =>
    if p.roles = [] then "User"
    else if "Admin" ∈ p.roles then "Admin"
    else if "Editor" ∈ p.roles then "Editor"
    else if "Viewer" ∈ p.roles then "Viewer"
    else if "User" ∈ p.roles then "User"
    else
      match p.roles with
      | [] => "User"
      | r0 :: _ => if r0 = "" then "User" else r0

/-- A profile whose only role is the empty string. -/
def emptyStringRoleProfile : UserProfile :=
  { name := "X", email := "", username := "", roles := [""], groups := [],
    jobTitle := none, officeLocation := none, graphProfile := none,
    permissions := initializePermissions [] }

/-- C9 counterexample: on a profile whose role set is `[""]` none of the
four hierarchy roles is present, so the claim predicts the first element
`""`; the code returns `"User"` instead (`roles[0] || 'User'` treats the
empty string as falsy). -/
theorem getHighestRole_counterexample :
    emptyStringRoleProfile.roles = [""] ∧
    ("Admin" ∉ emptyStringRoleProfile.roles ∧
      "Editor" ∉ emptyStringRoleProfile.roles ∧
      "Viewer" ∉ emptyStringRoleProfile.roles ∧
      "User" ∉ emptyStringRoleProfile.roles) ∧
    getHighestRole (some emptyStringRoleProfile) = "User" ∧
    getHighestRole (some emptyStringRoleProfile) ≠ "" := by
  decide

/-- C9 amended: `getHighestRole` returns the first entry of the priority
list `[Admin, Editor, Viewer, User]` present in the role set; if none is
present it returns the first element of the role set, except that an
empty-string first element falls back to `"User"`; an empty role set or a
missing profile gives `"User"`. -/
theorem getHighestRole_spec :
    (getHighestRole none = "User") ∧
    (∀ p : UserProfile, p.roles = [] → getHighestRole (some p) = "User") ∧
    (∀ p : UserProfile, "Admin" ∈ p.roles →
        getHighestRole (some p) = "Admin") ∧
    (∀ p : UserProfile, "Admin" ∉ p.roles → "Editor" ∈ p.roles →
        getHighestRole (some p) = "Editor") ∧
    (∀ p : UserProfile, "Admin" ∉ p.roles → "Editor" ∉ p.roles →
        "Viewer" ∈ p.roles → getHighestRole (some p) = "Viewer") ∧
    (∀ p : UserProfile, "Admin" ∉ p.roles → "Editor" ∉ p.roles →
        "Viewer" ∉ p.roles → "User" ∈ p.roles →
        getHighestRole (some p) = "User") ∧
    (∀ (p : UserProfile) (r : String) (rs : List String),
        p.roles = r :: rs →
        "Admin" ∉ p.roles → "Editor" ∉ p.roles → "Viewer" ∉ p.roles →
        "User" ∉ p.roles →
        getHighestRole (some p) = if r = "" then "User" else r) := by
  refine ⟨rfl, fun p h => ?_, fun p h => ?_, fun p h1 h2 => ?_,
    fun p h1 h2 h3 => ?_, fun p h1 h2 h3 h4 => ?_,
    fun p r rs hr h1 h2 h3 h4 => ?_⟩
  · simp [getHighestRole, h]
  · have hne : p.roles ≠ [] := by
      intro he; rw [he] at h; simp at h
    simp [getHighestRole, hne, h]
  · have hne : p.roles ≠ [] := by
      intro he; rw [he] at h2; simp at h2
    simp [getHighestRole, hne, h1, h2]
  · have hne : p.roles ≠ [] := by
      intro he; rw [he] at h3; simp at h3
    simp [getHighestRole, hne, h1, h2, h3]
  · have hne : p.roles ≠ [] := by
      intro he; rw [he] at h4; simp at h4
    simp [getHighestRole, hne, h1, h2, h3, h4]
  · have hne : p.roles ≠ [] := by simp [hr]
    rw [hr] at h1 h2 h3 h4
    simp [getHighestRole, hne, hr, h1, h2, h3, h4]

/-- A profile containing a hierarchy role. -/
def hierProfile : UserProfile :=
  { name := "t", email := "", username := "", roles := ["Viewer", "Admin"],
    groups := [], jobTitle := none, officeLocation := none,
    graphProfile := none, permissions := initializePermissions [] }

/-- A profile with a single custom role. -/
def customRoleProfile : UserProfile :=
  { name := "t", email := "", username := "", roles := ["CustomRole"],
    groups := [], jobTitle := none, officeLocation := none,
    graphProfile := none, permissions := initializePermissions [] }

theorem getHighestRole_spec_witness :
    ("Admin" ∈ hierProfile.roles ∧
      getHighestRole (some hierProfile) = "Admin") ∧
    (customRoleProfile.roles = "CustomRole" :: [] ∧
      getHighestRole (some customRoleProfile) =
        (if ("CustomRole" : String) = "" then "User" else "CustomRole")) :=
  ⟨⟨by decide, getHighestRole_spec.2.2.1 hierProfile (by decide)⟩,
   ⟨by decide,
    getHighestRole_spec.2.2.2.2.2.2 customRoleProfile "CustomRole" []
      (by decide) (by decide) (by decide) (by decide) (by decide)⟩⟩

/-! ## Profile assembly (`AuthService.loadUserProfile`) -/

/-- The `idTokenClaims` object of an MSAL account (fields may be absent). -/
structure IdTokenClaims where
  roles : Option (List String)
  jobTitle : Option String
  officeLocation : Option String
deriving DecidableEq, Repr

/-- An MSAL identity account (fields may be absent). -/
structure Account where
  name : Option String
  username : Option String
  idTokenClaims : Option IdTokenClaims
deriving DecidableEq, Repr

/-- `account.idTokenClaims?.roles || []`. -/
def claimsRoles (account : Account) : List String :=
  (account.idTokenClaims.bind (·.roles)).getD []

/-- Step 1 of `loadUserProfile`: the `basicProfile` object literal. -/
def buildBasicProfile (account : Account) : UserProfile :=
  { name := jsOrStr account.name "User"
    email := jsOrStr account.username ""
    username := jsOrStr account.username ""
    roles := claimsRoles account
    groups := []
    jobTitle := account.idTokenClaims.bind (·.jobTitle)
    officeLocation := account.idTokenClaims.bind (·.officeLocation)
    graphProfile := none
    permissions := initializePermissions [] }

/-- Step 2 of `loadUserProfile`: the `fullProfile` enriched with Graph
data (`allRoles` push loop, `[...new Set(allRoles)]` dedup, recomputed
permissions). -/
def fullProfile (basic : UserProfile) (gp : GraphUser)
    (groups : List AzureADGroup) : UserProfile :=
  let allRoles := groups.foldl (fun acc g => acc ++ g.roles) basic.roles
  let uniqueRoles := dedupFirst allRoles
  { basic with
    graphProfile := some gp
    groups := groups
    roles := uniqueRoles
    jobTitle := jsOrOpt gp.jobTitle basic.jobTitle
    officeLocation := jsOrOpt gp.officeLocation basic.officeLocation
    permissions := calculatePermissions uniqueRoles }

/-- The `fallbackProfile` used when the Graph API fails. -/
def fallbackProfile (basic : UserProfile) : UserProfile :=
  { basic with permissions := calculatePermissions basic.roles }

/-- The minimal `errorProfile` published when step 1 itself fails. -/
def errorProfile : UserProfile :=
  { name := "User", email := "", username := "", roles := ["User"],
    groups := [], jobTitle := none, officeLocation := none,
    graphProfile := none, permissions := calculatePermissions ["User"] }

/-- The three `BehaviorSubject`s of `AuthService` plus the
`isMsalInitialized` flag. -/
structure AuthState where
  profile : Option UserProfile
  isAuthenticated : Bool
  isLoading : Bool
  isMsalInitialized : Bool
deriving DecidableEq, Repr

/-- The environment of one `loadUserProfile` run: whether reading the
account in step 1 throws, and the results of the two awaited Graph calls
(`.error` = the promise rejected). -/
structure LoadInputs where
  account : Except Unit Account
  graphProfile : Except Unit GraphUser
  groups : Except Unit (List AzureADGroup)
deriving Repr

/-- `try { x } catch (e) { h(e) }`. -/
def tryCatchE {α : Type} (x : Except Unit α) (h : Unit → Except Unit α) :
    Except Unit α :=
  match x with
  | .ok a => .ok a
  | .error e => h e

/-- `this.isLoadingSubject.next(true)` at the top of `loadUserProfile`. -/
def loadEntry (s : AuthState) : AuthState :=
  { s with isLoading := true }

/-- `AuthService.loadUserProfile`, as a state transformer. The nested
`try`/`catch` blocks are `tryCatchE`; the two `await`s are the matches on
the `Except` inputs; the `finally` block applies to the result. -/
def loadUserProfile (inp : LoadInputs) (s : AuthState) :
    Except Unit AuthState :=
  let s1 := loadEntry s
  let result : Except Unit UserProfile :=
    tryCatchE
      (match inp.account with
       | .error e => .error e
       | .ok account =>
         let basic := buildBasicProfile account
         tryCatchE
           (match inp.graphProfile with
            | .error e => .error e
            | .ok gp =>
              match inp.groups with
              | .error e => .error e
              | .ok gs => .ok (fullProfile basic gp gs))
           (fun _ => .ok (fallbackProfile basic)))
      (fun _ => .ok errorProfile)
  match result with
  | .ok p =>
      .ok { s1 with profile := some p, isLoading := false,
                    isMsalInitialized := true }
  | .error e => .error e

/-- Which profile one `loadUserProfile` run publishes. -/
def publishedProfile (inp : LoadInputs) : UserProfile :=
  match inp.account with
  | .error _ => errorProfile
  | .ok account =>
    let basic := buildBasicProfile account
    match inp.graphProfile, inp.groups with
    | .ok gp, .ok gs => fullProfile basic gp gs
    | _, _ => fallbackProfile basic

lemma loadUserProfile_eq (inp : LoadInputs) (s : AuthState) :
    loadUserProfile inp s =
      .ok { s with profile := some (publishedProfile inp),
                   isLoading := false, isMsalInitialized := true } := by
  rcases inp with ⟨acc, gp, gs⟩
  cases acc <;> cases gp <;> cases gs <;> rfl

/-- An account whose embedded claims carry the role `"Admin"`. -/
def adminAccount : Account :=
  { name := some "A", username := some "a@contoso.com",
    idTokenClaims := some { roles := some ["Admin"], jobTitle := none,
                            officeLocation := none } }

/-- C5 counterexample: for an account whose claims roles are `["Admin"]`,
the basic profile's permissions are not `calculatePermissions` of the
claims roles — they are all false, because `initializePermissions` ignores
its argument and is called with `[]`. -/
theorem buildBasicProfile_permissions_counterexample :
    (buildBasicProfile adminAccount).roles = ["Admin"] ∧
    (buildBasicProfile adminAccount).permissions ≠
      calculatePermissions ["Admin"] ∧
    (buildBasicProfile adminAccount).permissions =
      ⟨false, false, false, false, false⟩ := by
  decide

/-- C5 amended: the basic profile of step 1 takes name, email and username
from the account, roles from the embedded claims only, empty groups — but
its permissions field has every permission false (it is
`initializePermissions([])`, not a derivation from the claims roles). -/
theorem buildBasicProfile_spec (account : Account) :
    (buildBasicProfile account).name = jsOrStr account.name "User" ∧
    (buildBasicProfile account).email = jsOrStr account.username "" ∧
    (buildBasicProfile account).username = jsOrStr account.username "" ∧
    (buildBasicProfile account).roles = claimsRoles account ∧
    (buildBasicProfile account).groups = [] ∧
    (∀ k : PermissionKey,
        (buildBasicProfile account).permissions.get k = false) := by
  refine ⟨rfl, rfl, rfl, rfl, rfl, fun k => ?_⟩
  cases k <;> rfl

/-- Inputs on which step 1 itself fails (reading the account throws). -/
def failInputs : LoadInputs :=
  { account := .error (), graphProfile := .error (), groups := .error () }

/-- The initial auth state (all three subjects at their initial values). -/
def initState : AuthState :=
  { profile := none, isAuthenticated := false, isLoading := false,
    isMsalInitialized := false }

/-- C6 counterexample: the minimal fallback profile published on a step-1
failure has `name = "User"`, not the empty string the claim requires. -/
theorem errorProfile_name_counterexample :
    loadUserProfile failInputs initState =
      .ok { initState with profile := some errorProfile,
                           isLoading := false, isMsalInitialized := true } ∧
    errorProfile.name = "User" ∧
    errorProfile.name ≠ "" := by
  refine ⟨rfl, rfl, by decide⟩

/-- C6 amended: when step 1 fails, `loadUserProfile` publishes the minimal
fallback profile whose name is `"User"`, whose email and username are
empty, whose roles are exactly `["User"]`, whose groups are empty, and
whose permissions equal `calculatePermissions(["User"])`. -/
theorem loadUserProfile_step1_failure (inp : LoadInputs) (s : AuthState)
    (h : inp.account = .error ()) :
    loadUserProfile inp s =
      .ok { s with profile := some errorProfile, isLoading := false,
                   isMsalInitialized := true } ∧
    errorProfile.name = "User" ∧ errorProfile.email = "" ∧
    errorProfile.username = "" ∧ errorProfile.roles = ["User"] ∧
    errorProfile.groups = [] ∧
    errorProfile.permissions = calculatePermissions ["User"] := by
  refine ⟨?_, rfl, rfl, rfl, rfl, rfl, rfl⟩
  rw [loadUserProfile_eq]
  have hp : publishedProfile inp = errorProfile := by
    rw [publishedProfile, h]
  rw [hp]

theorem loadUserProfile_step1_failure_witness :
    failInputs.account = .error () ∧
    loadUserProfile failInputs initState =
      .ok { initState with profile := some errorProfile,
                           isLoading := false, isMsalInitialized := true } :=
  ⟨rfl, (loadUserProfile_step1_failure failInputs initState rfl).1⟩

/-- C7: every `loadUserProfile` run sets the loading flag at entry,
returns normally (no exception escapes: the result is `.ok`), publishes
some profile, and exits with the loading flag false. -/
theorem loadUserProfile_total (inp : LoadInputs) (s : AuthState) :
    (loadEntry s).isLoading = true ∧
    ∃ p : UserProfile,
      loadUserProfile inp s =
        .ok { s with profile := some p, isLoading := false,
                     isMsalInitialized := true } :=
  ⟨rfl, publishedProfile inp, loadUserProfile_eq inp s⟩

/-! ## The auth state machine (C8) -/

/-- Run `loadUserProfile` and take the resulting state (the error branch
is unreachable; see `loadUserProfile_eq`). -/
def runLoad (inp : LoadInputs) (s : AuthState) : AuthState :=
  match loadUserProfile inp s with
  | .ok s' => s'
  | .error _ => s

/-- The operations that update the auth state store:
`initializeAuth` (no accounts / existing account / MSAL throws),
`login` (popup success with or without accounts / popup error),
`logout` (popup success / popup error), `reset`, and
`refreshUserProfile` (with or without accounts). -/
inductive AuthOp where
  | initNoAccounts
  | initWithAccount (inp : LoadInputs)
  | initFailure
  | loginSuccess (inp : Option LoadInputs)
  | loginFailure
  | logoutSuccess
  | logoutFailure
  | reset
  | refreshWithAccount (inp : LoadInputs)
  | refreshNoAccounts

/-- Effect of each operation on the auth state store, following the
source's `next(...)` calls in order. -/
def applyOp (op : AuthOp) (s : AuthState) : AuthState :=
  match op with
  | .initNoAccounts => { s with isMsalInitialized := true }
  | .initWithAccount inp =>
      -- loadUserProfile(...).then(() => isAuthenticated.next(true))
      { runLoad inp { s with isMsalInitialized := true } with
          isAuthenticated := true }
  | .initFailure => s
  | .loginSuccess (some inp) =>
      -- isLoading true at entry; load profile, then auth true, loading false
      { runLoad inp { s with isLoading := true } with
          isAuthenticated := true, isLoading := false }
  | .loginSuccess none => { s with isLoading := false }
  | .loginFailure => { s with isLoading := false }
  | .logoutSuccess =>
      { s with profile := none, isAuthenticated := false,
               isLoading := false }
  | .logoutFailure => { s with isLoading := false }
  | .reset =>
      { s with profile := none, isAuthenticated := false,
               isLoading := false, isMsalInitialized := false }
  | .refreshWithAccount inp => runLoad inp s
  | .refreshNoAccounts => s

/-- States of the store reachable from the initial state by the
operations. -/
inductive Reachable : AuthState → Prop where
  | init : Reachable initState
  | step (op : AuthOp) {s : AuthState} :
      Reachable s → Reachable (applyOp op s)

lemma runLoad_profile (inp : LoadInputs) (s : AuthState) :
    (runLoad inp s).profile = some (publishedProfile inp) := by
  rw [runLoad, loadUserProfile_eq]

/-- C8: in every reachable state of the auth state store,
`isAuthenticated = true` implies a profile is present. -/
theorem reachable_auth_implies_profile (s : AuthState)
    (hs : Reachable s) (ha : s.isAuthenticated = true) :
    s.profile ≠ none := by
  induction hs with
  | init => simp [initState] at ha
  | @step op t _ ih =>
    cases op with
    | initNoAccounts =>
        simp only [applyOp] at ha ⊢
        exact ih ha
    | initWithAccount inp =>
        simp [applyOp, runLoad_profile]
    | initFailure => exact ih ha
    | loginSuccess inp =>
        cases inp with
        | none =>
            simp only [applyOp] at ha ⊢
            exact ih ha
        | some inp =>
            simp [applyOp, runLoad_profile]
    | loginFailure =>
        simp only [applyOp] at ha ⊢
        exact ih ha
    | logoutSuccess => simp [applyOp] at ha
    | logoutFailure =>
        simp only [applyOp] at ha ⊢
        exact ih ha
    | reset => simp [applyOp] at ha
    | refreshWithAccount inp =>
        simp [applyOp, runLoad_profile]
    | refreshNoAccounts => exact ih ha

/-- Inputs for a successful demo load (no account claims, Graph down). -/
def demoInputs : LoadInputs :=
  { account := .ok { name := none, username := none, idTokenClaims := none }
    graphProfile := .error ()
    groups := .error () }

theorem reachable_auth_implies_profile_witness :
    Reachable (applyOp (.initWithAccount demoInputs) initState) ∧
    (applyOp (.initWithAccount demoInputs) initState).isAuthenticated
      = true ∧
    (applyOp (.initWithAccount demoInputs) initState).profile ≠ none :=
  ⟨Reachable.step (.initWithAccount demoInputs) Reachable.init, rfl,
   reachable_auth_implies_profile _
     (Reachable.step (.initWithAccount demoInputs) Reachable.init) rfl⟩

/-! ## Null-profile queries (C10) -/

/-- `AuthService.hasRole`, as a function of the stored profile. -/
def hasRole (profile : Option UserProfile) (role : String) : Bool :=
  match profile with
  | none => false
  | some p => p.roles.any fun userRole =>
      toLowerStr userRole == toLowerStr role

/-- `AuthService.hasAnyRole`. -/
def hasAnyRole (profile : Option UserProfile) (roles : List String) : Bool :=
  match profile with
  | none => false
  | some p => roles.any fun role =>
      p.roles.any fun userRole => toLowerStr userRole == toLowerStr role

/-- `AuthService.hasPermission`. -/
def hasPermission (profile : Option UserProfile) (k : PermissionKey) : Bool :=
  match profile with
  | none => false
  | some p => p.permissions.get k

/-- `AuthService.getPermissions` (`profile?.permissions || null`). -/
def getPermissions (profile : Option UserProfile) : Option Permissions :=
  match profile with
  | none => none
  | some p => some p.permissions

/-- `AuthService.getRoles` (`profile?.roles || []`). -/
def getRoles (profile : Option UserProfile) : List String :=
  match profile with
  | none => []
  | some p => p.roles

/-- C10: with no stored profile, every public query denies or returns the
empty value (and, being total functions, none of them throws). -/
theorem nullProfile_queries_deny :
    (∀ role : String, hasRole none role = false) ∧
    (∀ roles : List String, hasAnyRole none roles = false) ∧
    (∀ k : PermissionKey, hasPermission none k = false) ∧
    getRoles none = [] ∧
    getPermissions none = none :=
  ⟨fun _ => rfl, fun _ => rfl, fun _ => rfl, rfl, rfl⟩

end AzureAdAngular
